import Mathlib

/-!
Shallow embedding of the scheduling and sales core of the Express/MySQL
backend (routes for atenciones, ventas, pagos-venta, pagos-atencion).

Times are modelled as integer milliseconds since an arbitrary epoch: the
source manipulates JavaScript Date values through getTime()/new Date(ms)
and converts minutes with minToMs, so all date arithmetic in the routes
is plain integer arithmetic on milliseconds.  SQL tables are modelled as
Lean lists of rows; a SELECT ... WHERE id = ? that the code reads with
rows[0] is List.find?, an UPDATE ... WHERE id = ? is a List.map touching
every matching row (the primary-key uniqueness of the real tables is an
explicit Nodup hypothesis where a proof needs it), and an INSERT is an
append.  A handler is a function from the database value and the request
to Except (status, message) (database value, response): returning .error
models the rollback path, in which no committed write is observable.
-/

def rolMasoterapeuta : String := "masoterapeuta"

def rolVendedora : String := "vendedora"

def estadoCancelada : String := "cancelada"

def estadoPendiente : String := "pendiente"

def estadoPagado : String := "pagado"

def estadoParcial : String := "parcial"

def msgPersonalNoEncontrado : String := "Personal no encontrado o sin rol requerido"

def msgPersonalInactivo : String := "Personal inactivo"

def msgServiciosNoExisten : String := "Uno o mas id_servicio no existen"

def msgServiciosInactivos : String := "Uno o mas servicios estan inactivos"

def msgConflictoHorario : String := "Horario no disponible (posible doble reserva)"

def msgCamposAtencion : String := "Campos obligatorios: id_clienta, fecha_inicio, servicios[]"

def msgTrasladoNegativo : String := "traslado_min no puede ser negativo"

def msgTotalMayorCero : String := "El total debe ser mayor a 0"

def msgAtencionNoEncontrada : String := "Atencion no encontrada"

def msgCamposVenta : String := "Campos obligatorios: id_clienta, items[]"

def msgPersonalInvalido : String := "id_personal invalido"

def msgNoVendedoraActiva : String := "La persona seleccionada no es una vendedora activa"

def msgItemRequiere : String := "Cada item requiere: id_producto, cantidad, precio_unitario"

def msgCantidadPrecio : String := "cantidad > 0 y precio_unitario >= 0"

def msgProductoNoExiste : String := "Producto no existe"

def msgStockInsuficiente : String := "Stock insuficiente para producto"

def msgVentaNoEncontrada : String := "Venta no encontrada"

def msgMontoPositivo : String := "monto debe ser > 0"

/-- Conversion of minutes to milliseconds, from part_000 line 10
(const minToMs = (min) => Number(min) * 60 * 1000). -/
def minToMs (min : Int) : Int := min * 60 * 1000

/-- Row of the personal table joined with its role names
(tables personal, rol_personal, rol collapsed into one record). -/
structure Personal where
  id_personal : Nat
  activo : Bool
  roles : List String
  deriving DecidableEq

/-- Row of the servicio table (the columns the routes read). -/
structure Servicio where
  id_servicio : Nat
  duracion_min : Int
  activo : Bool
  deriving DecidableEq

/-- Element of the servicios array of a create/update atencion request. -/
structure ServicioReq where
  id_servicio : Nat
  precio_aplicado : Int
  deriving DecidableEq

/-- Row of the atencion table. -/
structure Atencion where
  id_atencion : Nat
  id_clienta : Nat
  id_personal : Nat
  fecha_inicio : Int
  fecha_fin : Int
  traslado_min : Int
  total : Int
  estado_atencion : String
  estado_pago : String
  deriving DecidableEq

/-- Row of the atencion_servicio table. -/
structure AtencionServicio where
  id_atencion : Nat
  id_servicio : Nat
  precio_aplicado : Int
  deriving DecidableEq

/-- Row of the pago_atencion table. -/
structure PagoAtencion where
  id_atencion : Nat
  monto : Int
  medio_pago : String
  deriving DecidableEq

/-- Database state seen by the atenciones and pagos-atencion routers. -/
structure AtencionDb where
  personal : List Personal
  servicio : List Servicio
  atenciones : List Atencion
  atencionServicios : List AtencionServicio
  pagosAtencion : List PagoAtencion
  nextIdAtencion : Nat
  deriving DecidableEq

/-- Embedding of validatePersonalActiveWithRole (part_000 lines 30-47):
the SQL join finds a personal row holding the role; a missing row gives
the not-found reason, an inactive row the inactive reason. -/
def validatePersonalActiveWithRole (tabla : List Personal) (idp : Nat)
    (rol : String) : Except String Unit :=
  match tabla.find? (fun p => p.id_personal == idp && p.roles.contains rol) with
  | none => .error msgPersonalNoEncontrado
  | some p => if p.activo then .ok () else .error msgPersonalInactivo

/-- Embedding of fetchServiciosInfo (part_000 lines 64-85).  The SQL
SELECT ... WHERE id_servicio IN (ids) returns every servicio row whose
id appears in the requested list, each table row at most once, so it is
the filter of the table by membership of the id in the request list.
The length comparison, the inactive check and the duration sum follow
the source line by line. -/
def fetchServiciosInfo (tabla : List Servicio) (servicios : List ServicioReq) :
    Except (Nat × String) Int :=
  let ids := servicios.map (fun s => s.id_servicio)
  let srvRows := tabla.filter (fun s => ids.contains s.id_servicio)
  if srvRows.length ≠ ids.length then
    .error (400, msgServiciosNoExisten)
  else if srvRows.any (fun s => !s.activo) then
    .error (409, msgServiciosInactivos)
  else
    .ok (srvRows.foldl (fun acc s => acc + s.duracion_min) 0)

/-- Blocked-interval start of a stored atencion row: the SQL condition
uses DATE_SUB(a.fecha_inicio, INTERVAL a.traslado_min MINUTE). -/
def bloqueInicioDe (a : Atencion) : Int :=
  a.fecha_inicio - minToMs a.traslado_min

/-- Row predicate of the conflict query in checkConflicts (part_000
lines 100-112): same personal, not the excluded atencion, not
cancelled, proposed block end strictly after the stored block start and
proposed block start strictly before the stored fecha_fin. -/
def enConflicto (idp : Nat) (excluir : Option Nat) (bloque_inicio bloque_fin : Int)
    (a : Atencion) : Bool :=
  a.id_personal == idp &&
  (match excluir with
   | some e => a.id_atencion != e
   | none => true) &&
  a.estado_atencion != estadoCancelada &&
  decide (bloqueInicioDe a < bloque_fin) &&
  decide (bloque_inicio < a.fecha_fin)

/-- Embedding of checkConflicts (part_000 lines 92-119): the LIMIT 1
query returns some row iff a row satisfies the predicate. -/
def checkConflicts (atenciones : List Atencion) (idp : Nat)
    (bloque_inicio bloque_fin : Int) (excluir : Option Nat) :
    Except (Nat × String) Unit :=
  match atenciones.find? (enConflicto idp excluir bloque_inicio bloque_fin) with
  | some _ => .error (409, msgConflictoHorario)
  | none => .ok ()

/-- Create/update request body with fecha_inicio already parsed to
milliseconds (parseInicio succeeded). -/
structure CrearAtencionReq where
  id_clienta : Nat
  id_personal : Nat
  fecha_inicio : Int
  traslado_min : Int
  servicios : List ServicioReq
  deriving DecidableEq

/-- Values computed by the validation phase of POST /atenciones,
everything the transaction then writes. -/
structure AtencionPreparada where
  fecha_fin : Int
  bloque_inicio : Int
  duracion_total : Int
  total : Int
  deriving DecidableEq

/-- Response body of a successful POST /atenciones. -/
structure CrearAtencionResp where
  id_atencion : Nat
  fecha_inicio : Int
  fecha_fin : Int
  bloque_inicio : Int
  bloque_fin : Int
  traslado_min : Int
  duracion_total_min : Int
  total : Int
  deriving DecidableEq

/-- Validation phase of POST /atenciones (part_000 lines 232-275), in
source order: required fields, personal active with role, traslado not
negative, service resolution, conflict check against the blocked
interval, total strictly positive.  All of this runs BEFORE
conn.beginTransaction() in the source. -/
def validarCrearAtencion (db : AtencionDb) (req : CrearAtencionReq) :
    Except (Nat × String) AtencionPreparada :=
  if req.servicios.isEmpty then .error (400, msgCamposAtencion)
  else
    match validatePersonalActiveWithRole db.personal req.id_personal rolMasoterapeuta with
    | .error reason => .error (400, reason)
    | .ok _ =>
      if req.traslado_min < 0 then .error (400, msgTrasladoNegativo)
      else
        match fetchServiciosInfo db.servicio req.servicios with
        | .error e => .error e
        | .ok totalDuracion =>
          let fecha_fin := req.fecha_inicio + minToMs totalDuracion
          let bloque_inicio := req.fecha_inicio - minToMs req.traslado_min
          match checkConflicts db.atenciones req.id_personal bloque_inicio fecha_fin none with
          | .error e => .error e
          | .ok _ =>
            let total := req.servicios.foldl (fun acc s => acc + s.precio_aplicado) 0
            if total ≤ 0 then .error (400, msgTotalMayorCero)
            else .ok ⟨fecha_fin, bloque_inicio, totalDuracion, total⟩

/-- Transaction phase of POST /atenciones (part_000 lines 277-299):
INSERT of the atencion row (estado columns take their schema defaults)
and of one atencion_servicio row per requested service. -/
def insertarAtencion (db : AtencionDb) (req : CrearAtencionReq)
    (prep : AtencionPreparada) : AtencionDb × CrearAtencionResp :=
  let id_atencion := db.nextIdAtencion
  let fila : Atencion :=
    ⟨id_atencion, req.id_clienta, req.id_personal, req.fecha_inicio,
      prep.fecha_fin, req.traslado_min, prep.total, estadoPendiente, estadoPendiente⟩
  let lineas := req.servicios.map (fun s => AtencionServicio.mk id_atencion s.id_servicio s.precio_aplicado)
  ({ db with
      atenciones := db.atenciones ++ [fila]
      atencionServicios := db.atencionServicios ++ lineas
      nextIdAtencion := db.nextIdAtencion + 1 },
   ⟨id_atencion, req.fecha_inicio, prep.fecha_fin, prep.bloque_inicio,
     prep.fecha_fin, req.traslado_min, prep.duracion_total, prep.total⟩)

/-- Whole POST /atenciones handler: validation phase then transaction
phase. -/
def crearAtencion (db : AtencionDb) (req : CrearAtencionReq) :
    Except (Nat × String) (AtencionDb × CrearAtencionResp) :=
  match validarCrearAtencion db req with
  | .error e => .error e
  | .ok prep => .ok (insertarAtencion db req prep)

/-- Database state after a POST /atenciones request: unchanged when the
handler answers with an error (nothing was committed). -/
def ejecutarCrearAtencion (db : AtencionDb) (req : CrearAtencionReq) : AtencionDb :=
  match crearAtencion db req with
  | .ok (db2, _) => db2
  | .error _ => db

/-- Request body of PUT /atenciones/:id; estado_atencion is optional
(COALESCE keeps the stored state when absent). -/
structure ActualizarAtencionReq where
  id_clienta : Nat
  id_personal : Nat
  fecha_inicio : Int
  traslado_min : Int
  servicios : List ServicioReq
  estado_atencion : Option String
  deriving DecidableEq

/-- Validation phase of PUT /atenciones/:id (part_000 lines 327-361), in
source order: required fields, existence of the atencion, personal,
traslado, service resolution, conflict check excluding the updated row,
total strictly positive.  As in create, all of it runs before
conn.beginTransaction(). -/
def validarActualizarAtencion (db : AtencionDb) (idAt : Nat)
    (req : ActualizarAtencionReq) : Except (Nat × String) AtencionPreparada :=
  if req.servicios.isEmpty then .error (400, msgCamposAtencion)
  else if (db.atenciones.find? (fun a => a.id_atencion == idAt)).isNone then
    .error (404, msgAtencionNoEncontrada)
  else
    match validatePersonalActiveWithRole db.personal req.id_personal rolMasoterapeuta with
    | .error reason => .error (400, reason)
    | .ok _ =>
      if req.traslado_min < 0 then .error (400, msgTrasladoNegativo)
      else
        match fetchServiciosInfo db.servicio req.servicios with
        | .error e => .error e
        | .ok totalDuracion =>
          let fecha_fin := req.fecha_inicio + minToMs totalDuracion
          let bloque_inicio := req.fecha_inicio - minToMs req.traslado_min
          match checkConflicts db.atenciones req.id_personal bloque_inicio fecha_fin (some idAt) with
          | .error e => .error e
          | .ok _ =>
            let total := req.servicios.foldl (fun acc s => acc + s.precio_aplicado) 0
            if total ≤ 0 then .error (400, msgTotalMayorCero)
            else .ok ⟨fecha_fin, bloque_inicio, totalDuracion, total⟩

/-- Transaction phase of PUT /atenciones/:id (part_000 lines 363-387):
UPDATE of the atencion row (estado_atencion via COALESCE), DELETE of its
atencion_servicio rows, INSERT of the new ones. -/
def aplicarActualizarAtencion (db : AtencionDb) (idAt : Nat)
    (req : ActualizarAtencionReq) (prep : AtencionPreparada) :
    AtencionDb × CrearAtencionResp :=
  let atenciones := db.atenciones.map (fun a =>
    if a.id_atencion == idAt then
      { a with
          id_clienta := req.id_clienta
          id_personal := req.id_personal
          fecha_inicio := req.fecha_inicio
          fecha_fin := prep.fecha_fin
          traslado_min := req.traslado_min
          total := prep.total
          estado_atencion := req.estado_atencion.getD a.estado_atencion }
    else a)
  let resto := db.atencionServicios.filter (fun l => !(l.id_atencion == idAt))
  let lineas := req.servicios.map (fun s => AtencionServicio.mk idAt s.id_servicio s.precio_aplicado)
  ({ db with
      atenciones := atenciones
      atencionServicios := resto ++ lineas },
   ⟨idAt, req.fecha_inicio, prep.fecha_fin, prep.bloque_inicio, prep.fecha_fin,
     req.traslado_min, prep.duracion_total, prep.total⟩)

/-- Whole PUT /atenciones/:id handler. -/
def actualizarAtencion (db : AtencionDb) (idAt : Nat)
    (req : ActualizarAtencionReq) :
    Except (Nat × String) (AtencionDb × CrearAtencionResp) :=
  match validarActualizarAtencion db idAt req with
  | .error e => .error e
  | .ok prep => .ok (aplicarActualizarAtencion db idAt req prep)

/-- Database state after a PUT /atenciones/:id request. -/
def ejecutarActualizarAtencion (db : AtencionDb) (idAt : Nat)
    (req : ActualizarAtencionReq) : AtencionDb :=
  match actualizarAtencion db idAt req with
  | .ok (db2, _) => db2
  | .error _ => db

/-- Row of the producto table (the columns the routes read). -/
structure Producto where
  id_producto : Nat
  nombre : String
  stock : Int
  stock_minimo : Int
  deriving DecidableEq

/-- Row of the venta table. -/
structure Venta where
  id_venta : Nat
  id_clienta : Nat
  id_personal : Nat
  total : Int
  estado_pago : String
  deriving DecidableEq

/-- Row of the detalle_venta table. -/
structure DetalleVenta where
  id_venta : Nat
  id_producto : Nat
  cantidad : Int
  precio_unitario : Int
  deriving DecidableEq

/-- Row of the pago_venta table. -/
structure PagoVenta where
  id_venta : Nat
  monto : Int
  medio_pago : String
  deriving DecidableEq

/-- Element of the items array of a create/update venta request. -/
structure ItemReq where
  id_producto : Nat
  cantidad : Int
  precio_unitario : Int
  deriving DecidableEq

/-- Low-stock warning pushed by the item loop (ventas.js lines 205-212). -/
structure StockWarning where
  id_producto : Nat
  producto_nombre : String
  stock_actual : Int
  stock_minimo : Int
  deriving DecidableEq

/-- Database state seen by the ventas and pagos-venta routers. -/
structure VentaDb where
  personal : List Personal
  productos : List Producto
  ventas : List Venta
  detalles : List DetalleVenta
  pagosVenta : List PagoVenta
  nextIdVenta : Nat
  deriving DecidableEq

/-- Embedding of the vendedora validation query (ventas.js lines
128-140): a personal row with the given id, activo = 1 and role
vendedora exists. -/
def esVendedoraActiva (tabla : List Personal) (idp : Nat) : Bool :=
  tabla.any (fun p => p.id_personal == idp && p.activo && p.roles.contains rolVendedora)

/-- SQL UPDATE producto SET stock = stock + delta WHERE id_producto = id:
every row whose id matches is adjusted. -/
def updateStock (productos : List Producto) (idp : Nat) (delta : Int) :
    List Producto :=
  productos.map (fun p =>
    if p.id_producto == idp then { p with stock := p.stock + delta } else p)

/-- Accumulator of the per-item loop of POST /ventas and
PUT /ventas/:id: working copy of the producto table, detail rows
inserted so far, running total and warnings. -/
structure EstadoItems where
  productos : List Producto
  detalles : List DetalleVenta
  total : Int
  warnings : List StockWarning
  deriving DecidableEq

/-- Body of the per-item loop of POST /ventas (ventas.js lines
160-221): field validation (JavaScript falsiness makes id 0 or
cantidad 0 hit the first message), range validation, SELECT ... FOR
UPDATE of the producto row, stock check, stock decrement, low-stock
warning, detail insert and total accumulation. -/
def procesarItem (id_venta : Nat) (st : EstadoItems) (it : ItemReq) :
    Except (Nat × String) EstadoItems :=
  if it.id_producto == 0 || it.cantidad == 0 then
    .error (400, msgItemRequiere)
  else if it.cantidad ≤ 0 || it.precio_unitario < 0 then
    .error (400, msgCantidadPrecio)
  else
    match st.productos.find? (fun p => p.id_producto == it.id_producto) with
    | none => .error (404, msgProductoNoExiste)
    | some prod =>
      if prod.stock < it.cantidad then .error (400, msgStockInsuficiente)
      else
        let stockNuevo := prod.stock - it.cantidad
        let warnings :=
          if stockNuevo ≤ prod.stock_minimo then
            st.warnings ++ [⟨it.id_producto, prod.nombre, stockNuevo, prod.stock_minimo⟩]
          else st.warnings
        .ok ⟨updateStock st.productos it.id_producto (-it.cantidad),
             st.detalles ++ [⟨id_venta, it.id_producto, it.cantidad, it.precio_unitario⟩],
             st.total + it.cantidad * it.precio_unitario,
             warnings⟩

/-- The per-item loop itself: first error aborts (the handler rolls
back and returns). -/
def procesarItems (id_venta : Nat) (st : EstadoItems) :
    List ItemReq → Except (Nat × String) EstadoItems
  | [] => .ok st
  | it :: rest =>
    match procesarItem id_venta st it with
    | .error e => .error e
    | .ok st2 => procesarItems id_venta st2 rest

/-- Request body of POST /ventas and PUT /ventas/:id. -/
structure CrearVentaReq where
  id_clienta : Nat
  id_personal : Nat
  items : List ItemReq
  deriving DecidableEq

/-- Response body of a successful POST /ventas or PUT /ventas/:id. -/
structure CrearVentaResp where
  id_venta : Nat
  total : Int
  warnings : List StockWarning
  deriving DecidableEq

/-- Embedding of POST /ventas (ventas.js lines 106-244): required
fields, id_personal resolution (0 models the invalid/absent id), the
vendedora check, header INSERT with total 0, the item loop, the final
total UPDATE and the commit.  Any error rolls the transaction back, so
the committed effect of a success is exactly the new producto table,
the header with its final total, and the detail rows. -/
def crearVenta (db : VentaDb) (req : CrearVentaReq) :
    Except (Nat × String) (VentaDb × CrearVentaResp) :=
  if req.items.isEmpty then .error (400, msgCamposVenta)
  else if req.id_personal == 0 then .error (400, msgPersonalInvalido)
  else if !esVendedoraActiva db.personal req.id_personal then
    .error (400, msgNoVendedoraActiva)
  else
    let id_venta := db.nextIdVenta
    match procesarItems id_venta ⟨db.productos, [], 0, []⟩ req.items with
    | .error e => .error e
    | .ok st =>
      .ok ({ db with
              productos := st.productos
              ventas := db.ventas ++ [⟨id_venta, req.id_clienta, req.id_personal, st.total, estadoPendiente⟩]
              detalles := db.detalles ++ st.detalles
              nextIdVenta := db.nextIdVenta + 1 },
           ⟨id_venta, st.total, st.warnings⟩)

/-- Database state after a POST /ventas request. -/
def ejecutarCrearVenta (db : VentaDb) (req : CrearVentaReq) : VentaDb :=
  match crearVenta db req with
  | .ok (db2, _) => db2
  | .error _ => db

/-- Stock restoration loop of PUT /ventas/:id (part_002 lines 382-390):
for each existing detail row with cantidad > 0, stock is added back. -/
def restaurarStock (productos : List Producto) :
    List DetalleVenta → List Producto
  | [] => productos
  | d :: rest =>
    restaurarStock
      (if 0 < d.cantidad then updateStock productos d.id_producto d.cantidad
       else productos)
      rest

/-- Embedding of PUT /ventas/:id (part_002 lines 320-479): required
fields, venta lookup FOR UPDATE, vendedora check, restoration of the
stock of every old detail row, DELETE of the old detail rows, the same
per-item loop as create over the new items, header UPDATE, commit. -/
def actualizarVenta (db : VentaDb) (idVenta : Nat) (req : CrearVentaReq) :
    Except (Nat × String) (VentaDb × CrearVentaResp) :=
  if req.items.isEmpty then .error (400, msgCamposVenta)
  else if req.id_personal == 0 then .error (400, msgPersonalInvalido)
  else if (db.ventas.find? (fun v => v.id_venta == idVenta)).isNone then
    .error (404, msgVentaNoEncontrada)
  else if !esVendedoraActiva db.personal req.id_personal then
    .error (400, msgNoVendedoraActiva)
  else
    let oldItems := db.detalles.filter (fun d => d.id_venta == idVenta)
    let productos1 := restaurarStock db.productos oldItems
    let restoDetalles := db.detalles.filter (fun d => !(d.id_venta == idVenta))
    match procesarItems idVenta ⟨productos1, [], 0, []⟩ req.items with
    | .error e => .error e
    | .ok st =>
      .ok ({ db with
              productos := st.productos
              detalles := restoDetalles ++ st.detalles
              ventas := db.ventas.map (fun v =>
                if v.id_venta == idVenta then
                  { v with
                      id_clienta := req.id_clienta
                      id_personal := req.id_personal
                      total := st.total }
                else v) },
           ⟨idVenta, st.total, st.warnings⟩)

/-- Database state after a PUT /ventas/:id request. -/
def ejecutarActualizarVenta (db : VentaDb) (idVenta : Nat)
    (req : CrearVentaReq) : VentaDb :=
  match actualizarVenta db idVenta req with
  | .ok (db2, _) => db2
  | .error _ => db

/-- Payment status derivation shared by both payment routes: pagado
when the paid total reaches the order total, parcial when something was
paid, pendiente otherwise. -/
def derivarEstadoPago (totalPagado total : Int) : String :=
  if totalPagado ≥ total then estadoPagado
  else if totalPagado > 0 then estadoParcial
  else estadoPendiente

/-- SELECT COALESCE(SUM(monto),0) FROM pago_venta WHERE id_venta = ?. -/
def sumPagosVenta (pagos : List PagoVenta) (idv : Nat) : Int :=
  (pagos.filter (fun p => p.id_venta == idv)).foldl (fun acc p => acc + p.monto) 0

/-- SELECT COALESCE(SUM(monto),0) FROM pago_atencion WHERE id_atencion = ?. -/
def sumPagosAtencion (pagos : List PagoAtencion) (ida : Nat) : Int :=
  (pagos.filter (fun p => p.id_atencion == ida)).foldl (fun acc p => acc + p.monto) 0

/-- Response body of a successful payment submission. -/
structure PagoResp where
  total : Int
  totalPagado : Int
  estado_pago : String
  deriving DecidableEq

/-- Embedding of POST /pagos-venta (part_002 lines 9-70): amount
validation, INSERT of the payment row, venta lookup FOR UPDATE (a
missing venta rolls the insert back), recomputation of the paid total
by aggregation over every payment row of the venta, status derivation
and status write on the header. -/
def registrarPagoVenta (db : VentaDb) (idVenta : Nat) (monto : Int)
    (medio : String) : Except (Nat × String) (VentaDb × PagoResp) :=
  if idVenta == 0 || medio == "" then
    .error (400, msgMontoPositivo)
  else if monto ≤ 0 then .error (400, msgMontoPositivo)
  else
    let pagos2 := db.pagosVenta ++ [⟨idVenta, monto, medio⟩]
    match db.ventas.find? (fun v => v.id_venta == idVenta) with
    | none => .error (404, msgVentaNoEncontrada)
    | some v =>
      let totalPagado := sumPagosVenta pagos2 idVenta
      let estado := derivarEstadoPago totalPagado v.total
      .ok ({ db with
              pagosVenta := pagos2
              ventas := db.ventas.map (fun w =>
                if w.id_venta == idVenta then { w with estado_pago := estado } else w) },
           ⟨v.total, totalPagado, estado⟩)

/-- Embedding of POST /pagos-atencion (part_005 lines 9-70): same
pipeline against the atencion tables (there the lookup precedes the
insert; the committed effect is identical). -/
def registrarPagoAtencion (db : AtencionDb) (idAt : Nat) (monto : Int)
    (medio : String) : Except (Nat × String) (AtencionDb × PagoResp) :=
  if idAt == 0 || medio == "" then
    .error (400, msgMontoPositivo)
  else if monto ≤ 0 then .error (400, msgMontoPositivo)
  else
    match db.atenciones.find? (fun a => a.id_atencion == idAt) with
    | none => .error (404, msgAtencionNoEncontrada)
    | some a =>
      let pagos2 := db.pagosAtencion ++ [⟨idAt, monto, medio⟩]
      let totalPagado := sumPagosAtencion pagos2 idAt
      let estado := derivarEstadoPago totalPagado a.total
      .ok ({ db with
              pagosAtencion := pagos2
              atenciones := db.atenciones.map (fun b =>
                if b.id_atencion == idAt then { b with estado_pago := estado } else b) },
           ⟨a.total, totalPagado, estado⟩)

/-- Concrete database for the C1 witness: one active masoterapeuta,
two active services of 30 and 20 minutes, no appointments yet. -/
def dbC1 : AtencionDb :=
  ⟨[⟨1, true, [rolMasoterapeuta]⟩], [⟨1, 30, true⟩, ⟨2, 20, true⟩], [], [], [], 1⟩

/-- Concrete request for the C1 witness: start 36000000 ms (10:00:00 on
the day taken as epoch), traslado 15 min, both services. -/
def reqC1 : CrearAtencionReq := ⟨1, 1, 36000000, 15, [⟨1, 15000⟩, ⟨2, 10000⟩]⟩

/-- Expected response of the C1 witness request: end 39000000 ms
(10:50:00), blocked start 35100000 ms (09:45:00). -/
def respC1 : CrearAtencionResp :=
  ⟨1, 36000000, 39000000, 35100000, 39000000, 15, 50, 25000⟩

/-- Expected database after the C1 witness request. -/
def dbC1fin : AtencionDb :=
  ⟨[⟨1, true, [rolMasoterapeuta]⟩], [⟨1, 30, true⟩, ⟨2, 20, true⟩],
    [⟨1, 1, 1, 36000000, 39000000, 15, 25000, estadoPendiente, estadoPendiente⟩],
    [⟨1, 1, 15000⟩, ⟨1, 2, 10000⟩], [], 2⟩

/-- Stored appointment for the C2 witness: blocked interval
[35100000, 39000000], that is [09:45:00, 10:50:00]. -/
def eC2 : Atencion :=
  ⟨1, 1, 1, 36000000, 39000000, 15, 25000, estadoPendiente, estadoPendiente⟩

/-- Database for the C3 counterexample: the servicio table only holds
service 1. -/
def dbC3 : AtencionDb :=
  ⟨[⟨1, true, [rolMasoterapeuta]⟩], [⟨1, 30, true⟩], [], [], [], 1⟩

/-- Request for the C3 counterexample: it references service 2, which
does not exist. -/
def reqC3 : CrearAtencionReq := ⟨1, 1, 0, 0, [⟨2, 1000⟩]⟩

/-- Stored appointment used by the witnesses that exercise the update
path. -/
def atWitness : Atencion := ⟨7, 1, 1, 0, 1800000, 0, 1000, estadoPendiente, estadoPendiente⟩

/-- Database for the C3 witness: service 2 absent, appointment 7
stored. -/
def dbC3w : AtencionDb :=
  ⟨[⟨1, true, [rolMasoterapeuta]⟩], [⟨1, 30, true⟩], [atWitness], [], [], 8⟩

/-- Update request for the C3 witness, referencing missing service 2. -/
def reqC3u : ActualizarAtencionReq := ⟨1, 1, 0, 0, [⟨2, 1000⟩], none⟩

/-- Create request for the C10 witness: service 1 exists and is listed
twice. -/
def reqC10 : CrearAtencionReq := ⟨1, 1, 0, 0, [⟨1, 1000⟩, ⟨1, 1000⟩]⟩

/-- Update request for the C10 witness. -/
def reqC10u : ActualizarAtencionReq := ⟨1, 1, 0, 0, [⟨1, 1000⟩, ⟨1, 1000⟩], none⟩

/-- Step kinds of the POST /atenciones and PUT /atenciones/:id
handlers, in the order the statements appear in part_000. -/
inductive PasoAtencion where
  | validarCampos
  | verificarExistencia
  | validarPersonal
  | validarTraslado
  | resolverServicios
  | verificarConflictos
  | validarTotal
  | iniciarTransaccion
  | escribirFilas
  | confirmarTransaccion
  deriving DecidableEq

/-- Statement order of POST /atenciones (part_000 lines 232-299): the
conflict check at line 270 precedes conn.beginTransaction() at line
277. -/
def pasosCrearAtencion : List PasoAtencion :=
  [.validarCampos, .validarPersonal, .validarTraslado, .resolverServicios,
   .verificarConflictos, .validarTotal, .iniciarTransaccion, .escribirFilas,
   .confirmarTransaccion]

/-- Statement order of PUT /atenciones/:id (part_000 lines 327-387):
the conflict check at line 357 precedes conn.beginTransaction() at line
363. -/
def pasosActualizarAtencion : List PasoAtencion :=
  [.validarCampos, .verificarExistencia, .validarPersonal, .validarTraslado,
   .resolverServicios, .verificarConflictos, .validarTotal, .iniciarTransaccion,
   .escribirFilas, .confirmarTransaccion]

/-- Interleaved execution of two concurrent POST /atenciones requests
on separate connections.  Because the whole validation phase (including
checkConflicts) runs before conn.beginTransaction() and acquires no
lock, the scheduler may run both validation phases against the same
committed state before either insert commits; each transaction then
inserts and commits unconditionally. -/
def resultadoCarrera (db : AtencionDb) (r1 r2 : CrearAtencionReq) :
    Option AtencionDb :=
  match validarCrearAtencion db r1, validarCrearAtencion db r2 with
  | .ok p1, .ok p2 => some (insertarAtencion (insertarAtencion db r1 p1).1 r2 p2).1
  | _, _ => none

/-- Overlap of the blocked intervals of two stored non-cancelled
atenciones of the same personal, per the strict rule of the Interval
Model. -/
def seSolapan (a b : Atencion) : Prop :=
  a.id_personal = b.id_personal ∧
  a.estado_atencion ≠ estadoCancelada ∧ b.estado_atencion ≠ estadoCancelada ∧
  bloqueInicioDe b < a.fecha_fin ∧ bloqueInicioDe a < b.fecha_fin

/-- First row committed by the racing requests. -/
def filaCarrera1 : Atencion :=
  ⟨1, 1, 1, 36000000, 39000000, 15, 25000, estadoPendiente, estadoPendiente⟩

/-- Second row committed by the racing requests: same personal,
identical blocked interval. -/
def filaCarrera2 : Atencion :=
  ⟨2, 1, 1, 36000000, 39000000, 15, 25000, estadoPendiente, estadoPendiente⟩

/-- Database committed after the race of two identical requests. -/
def dbCarreraFin : AtencionDb :=
  ⟨[⟨1, true, [rolMasoterapeuta]⟩], [⟨1, 30, true⟩, ⟨2, 20, true⟩],
    [filaCarrera1, filaCarrera2],
    [⟨1, 1, 15000⟩, ⟨1, 2, 10000⟩, ⟨2, 1, 15000⟩, ⟨2, 2, 10000⟩], [], 3⟩

/-- Name of the product used in the C9 witness. -/
def nombreCrema : String := "crema"

/-- Loop state for the first C9 sale: stock 12, minimum 10. -/
def stC9a : EstadoItems := ⟨[⟨1, nombreCrema, 12, 10⟩], [], 0, []⟩

/-- Loop state after selling 5 units: stock 7, warned. -/
def stC9b : EstadoItems :=
  ⟨[⟨1, nombreCrema, 7, 10⟩], [⟨1, 1, 5, 1000⟩], 5000,
    [⟨1, nombreCrema, 7, 10⟩]⟩

/-- Fresh loop state of the second C9 sale over the updated table. -/
def stC9c : EstadoItems := ⟨[⟨1, nombreCrema, 7, 10⟩], [], 0, []⟩

/-- Loop state after selling 3 more units: stock 4, still warned. -/
def stC9d : EstadoItems :=
  ⟨[⟨1, nombreCrema, 4, 10⟩], [⟨2, 1, 3, 1000⟩], 3000,
    [⟨1, nombreCrema, 4, 10⟩]⟩

/-- Database for the C4 counterexample and witness: one active
vendedora, one product with stock 2. -/
def dbC4 : VentaDb := ⟨[⟨1, true, [rolVendedora]⟩], [⟨1, nombreCrema, 2, 0⟩], [], [], [], 1⟩

/-- Request for the C4 counterexample and witness: quantity 5 against
stock 2. -/
def reqC4 : CrearVentaReq := ⟨1, 1, [⟨1, 5, 1000⟩]⟩

/-- Database for the C5 witness: one product with stock 12. -/
def dbC5 : VentaDb :=
  ⟨[⟨1, true, [rolVendedora]⟩], [⟨1, nombreCrema, 12, 10⟩], [], [], [], 1⟩

/-- Request for the C5 witness. -/
def reqC5 : CrearVentaReq := ⟨1, 1, [⟨1, 5, 1000⟩]⟩

/-- Database after the C5 witness sale: stock 7. -/
def dbC5fin : VentaDb :=
  ⟨[⟨1, true, [rolVendedora]⟩], [⟨1, nombreCrema, 7, 10⟩],
    [⟨1, 1, 1, 5000, estadoPendiente⟩], [⟨1, 1, 5, 1000⟩], [], 2⟩

/-- Response of the C5 witness sale. -/
def respC5 : CrearVentaResp := ⟨1, 5000, [⟨1, nombreCrema, 7, 10⟩]⟩

/-- The product row committed by the C5 witness sale. -/
def prodC5fin : Producto := ⟨1, nombreCrema, 7, 10⟩

/-- Total quantity the restoration loop adds back to the rows of a
given product id: old detail rows of that product with positive
quantity. -/
def sumRestaura : List DetalleVenta → Nat → Int
  | [], _ => 0
  | d :: rest, idp =>
    (if d.id_producto = idp ∧ 0 < d.cantidad then d.cantidad else 0)
      + sumRestaura rest idp

/-- Total quantity the reservation loop subtracts from the rows of a
given product id. -/
def sumCantidades : List ItemReq → Nat → Int
  | [], _ => 0
  | it :: rest, idp =>
    (if it.id_producto = idp then it.cantidad else 0) + sumCantidades rest idp

/-- Database for the C8 witness: product stock 7, venta 1 with an old
line item of quantity 5 on that product. -/
def dbC8 : VentaDb :=
  ⟨[⟨1, true, [rolVendedora]⟩], [⟨1, nombreCrema, 7, 10⟩],
    [⟨1, 1, 1, 5000, estadoPendiente⟩], [⟨1, 1, 5, 1000⟩], [], 2⟩

/-- Update request for the C8 witness: the item list is replaced by
quantity 2 of the same product. -/
def reqC8 : CrearVentaReq := ⟨1, 1, [⟨1, 2, 1000⟩]⟩

/-- Database after the C8 witness update: stock 7 + 5 - 2 = 10. -/
def dbC8fin : VentaDb :=
  ⟨[⟨1, true, [rolVendedora]⟩], [⟨1, nombreCrema, 10, 10⟩],
    [⟨1, 1, 1, 2000, estadoPendiente⟩], [⟨1, 1, 2, 1000⟩], [], 2⟩

/-- Response of the C8 witness update. -/
def respC8 : CrearVentaResp := ⟨1, 2000, [⟨1, nombreCrema, 10, 10⟩]⟩

/-- Payment method of the C6 witness. -/
def medioEfectivo : String := "efectivo"

/-- Database for the C6 witness: venta 1 with total 10000 and an
already-stored payment of 4000. -/
def dbC6 : VentaDb :=
  ⟨[], [], [⟨1, 1, 1, 10000, estadoParcial⟩], [], [⟨1, 4000, medioEfectivo⟩], 2⟩

/-- Database after the C6 witness payment of 6000: status pagado. -/
def dbC6fin : VentaDb :=
  ⟨[], [], [⟨1, 1, 1, 10000, estadoPagado⟩], [],
    [⟨1, 4000, medioEfectivo⟩, ⟨1, 6000, medioEfectivo⟩], 2⟩

/-- Response of the C6 witness payment. -/
def respC6 : PagoResp := ⟨10000, 10000, estadoPagado⟩

/-- Success characterization of the validation phase of
POST /atenciones: the computed fields of the prepared record. -/
theorem validarCrearAtencion_ok (db : AtencionDb) (req : CrearAtencionReq)
    (prep : AtencionPreparada) (d : Int)
    (h : validarCrearAtencion db req = .ok prep)
    (hdur : fetchServiciosInfo db.servicio req.servicios = .ok d) :
    prep.fecha_fin = req.fecha_inicio + minToMs d ∧
    prep.bloque_inicio = req.fecha_inicio - minToMs req.traslado_min ∧
    prep.duracion_total = d ∧
    prep.total = req.servicios.foldl (fun acc s => acc + s.precio_aplicado) 0 ∧
    0 < prep.total := by
  unfold validarCrearAtencion at h
  split at h
  · exact absurd h (by simp)
  · split at h
    · exact absurd h (by simp)
    · split at h
      · exact absurd h (by simp)
      · split at h
        · exact absurd h (by simp)
        · rename_i totalDuracion heq
          rw [hdur] at heq
          injection heq with heq
          subst heq
          dsimp only at h
          split at h
          · exact absurd h (by simp)
          · split at h
            · exact absurd h (by simp)
            · rename_i hle
              injection h with h
              subst h
              refine ⟨rfl, rfl, rfl, rfl, ?_⟩
              dsimp only
              omega

/-- Success of the whole POST /atenciones handler decomposes into a
successful validation phase followed by the transaction phase. -/
theorem crearAtencion_ok_iff (db : AtencionDb) (req : CrearAtencionReq)
    (db2 : AtencionDb) (resp : CrearAtencionResp) :
    crearAtencion db req = .ok (db2, resp) ↔
      ∃ prep, validarCrearAtencion db req = .ok prep ∧
        insertarAtencion db req prep = (db2, resp) := by
  unfold crearAtencion
  cases hv : validarCrearAtencion db req with
  | error e => simp
  | ok prep => simp

/-- C1.  For every appointment-create request with start time s and a
service list whose resolved durations sum to d minutes, a successful
POST /atenciones answers with end time s + d (the travel buffer is not
added to the end) and blocked interval [s - traslado, s + d], and the
stored row carries those same times. -/
theorem crear_atencion_fin_y_bloqueo
    (db : AtencionDb) (req : CrearAtencionReq) (db2 : AtencionDb)
    (resp : CrearAtencionResp) (d : Int)
    (hok : crearAtencion db req = .ok (db2, resp))
    (hdur : fetchServiciosInfo db.servicio req.servicios = .ok d) :
    resp.fecha_fin = req.fecha_inicio + minToMs d ∧
    resp.bloque_inicio = req.fecha_inicio - minToMs req.traslado_min ∧
    resp.bloque_fin = resp.fecha_fin ∧
    resp.duracion_total_min = d ∧
    ∃ fila : Atencion,
      db2.atenciones = db.atenciones ++ [fila] ∧
      fila.fecha_inicio = req.fecha_inicio ∧
      fila.fecha_fin = req.fecha_inicio + minToMs d ∧
      fila.traslado_min = req.traslado_min := by
  obtain ⟨prep, hv, hi⟩ := (crearAtencion_ok_iff db req db2 resp).1 hok
  obtain ⟨h1, h2, h3, _, _⟩ := validarCrearAtencion_ok db req prep d hv hdur
  unfold insertarAtencion at hi
  injection hi with hdb hresp
  subst hdb
  subst hresp
  dsimp only
  exact ⟨h1, h2, rfl, h3, _, rfl, rfl, h1, rfl⟩

/-- Witness for C1: the spec example.  Start 10:00:00 with travel
buffer 15 and durations 30 and 20 yields end 10:50:00 and blocked
start 09:45:00. -/
theorem crear_atencion_fin_y_bloqueo_witness :
    crearAtencion dbC1 reqC1 = .ok (dbC1fin, respC1) ∧
    respC1.fecha_fin = 39000000 ∧ respC1.bloque_inicio = 35100000 := by
  obtain ⟨h1, h2, -, -, -⟩ :=
    crear_atencion_fin_y_bloqueo dbC1 reqC1 dbC1fin respC1 50 rfl rfl
  refine ⟨rfl, ?_, ?_⟩
  · rw [h1]; norm_num [minToMs, reqC1]
  · rw [h2]; norm_num [minToMs, reqC1]

/-- C2.  Against a stored non-cancelled atencion of the same personal,
checkConflicts reports a conflict iff the proposed blocked interval
ends strictly after the stored blocked start AND starts strictly before
the stored end; hence a proposal starting exactly at the stored end
passes, while one starting strictly earlier (that still reaches past
the stored blocked start) is rejected with status 409. -/
theorem check_conflicts_estricto
    (e : Atencion) (idp : Nat) (bs bf : Int)
    (hpers : e.id_personal = idp) (hcanc : e.estado_atencion ≠ estadoCancelada) :
    (checkConflicts [e] idp bs bf none = .error (409, msgConflictoHorario) ↔
      (bloqueInicioDe e < bf ∧ bs < e.fecha_fin)) ∧
    (bs = e.fecha_fin → checkConflicts [e] idp bs bf none = .ok ()) ∧
    (bs < e.fecha_fin → bloqueInicioDe e < bf →
      checkConflicts [e] idp bs bf none = .error (409, msgConflictoHorario)) := by
  have hbne : (e.estado_atencion != estadoCancelada) = true := by
    simpa [bne_iff_ne] using hcanc
  have hpred : enConflicto idp none bs bf e
      = (decide (bloqueInicioDe e < bf) && decide (bs < e.fecha_fin)) := by
    simp [enConflicto, hpers, hbne]
  by_cases h1 : bloqueInicioDe e < bf <;> by_cases h2 : bs < e.fecha_fin <;>
    simp [checkConflicts, List.find?, hpred, h1, h2] <;> omega

/-- Witness for C2: a proposal starting exactly at 39000000 ms
(10:50:00) passes; one starting at 38999000 ms (10:49:59) conflicts. -/
theorem check_conflicts_estricto_witness :
    checkConflicts [eC2] 1 39000000 42000000 none = .ok () ∧
    checkConflicts [eC2] 1 38999000 41999000 none =
      .error (409, msgConflictoHorario) := by
  constructor
  · exact (check_conflicts_estricto eC2 1 39000000 42000000 rfl (by decide)).2.1 rfl
  · exact (check_conflicts_estricto eC2 1 38999000 41999000 rfl (by decide)).2.2
      (by norm_num [eC2]) (by norm_num [eC2, bloqueInicioDe, minToMs])

/-- When the servicio table has primary-key-unique ids and some
requested service id matches no table row, the IN lookup returns fewer
rows than requested identifiers and fetchServiciosInfo answers with
status 400. -/
theorem fetch_servicios_no_resuelto (tabla : List Servicio)
    (servicios : List ServicioReq)
    (hT : (tabla.map (fun s => s.id_servicio)).Nodup)
    (hmiss : ∃ s ∈ servicios, ∀ t ∈ tabla, t.id_servicio ≠ s.id_servicio) :
    fetchServiciosInfo tabla servicios = .error (400, msgServiciosNoExisten) := by
  obtain ⟨s, hs, hnot⟩ := hmiss
  have hlen :
      (tabla.filter (fun t =>
        (servicios.map (fun s => s.id_servicio)).contains t.id_servicio)).length
        < (servicios.map (fun s => s.id_servicio)).length := by
    set ids := servicios.map (fun s => s.id_servicio) with hids
    set srv := tabla.filter (fun t => ids.contains t.id_servicio) with hsrv
    have hnd : (srv.map (fun t => t.id_servicio)).Nodup :=
      List.Nodup.sublist (List.Sublist.map _ (List.filter_sublist tabla)) hT
    have hmem : s.id_servicio ∈ ids := List.mem_map.2 ⟨s, hs, rfl⟩
    have hsub : (srv.map (fun t => t.id_servicio)).toFinset ⊆
        ids.toFinset.erase s.id_servicio := by
      intro x hx
      rw [List.mem_toFinset] at hx
      obtain ⟨t, ht, rfl⟩ := List.mem_map.1 hx
      have htT : t ∈ tabla := List.mem_of_mem_filter ht
      have hxid : t.id_servicio ∈ ids := by
        simpa using (List.mem_filter.1 ht).2
      exact Finset.mem_erase.2 ⟨hnot t htT, List.mem_toFinset.2 hxid⟩
    calc srv.length = (srv.map (fun t => t.id_servicio)).length :=
          (List.length_map srv _).symm
      _ = (srv.map (fun t => t.id_servicio)).toFinset.card :=
          (List.toFinset_card_of_nodup hnd).symm
      _ ≤ (ids.toFinset.erase s.id_servicio).card := Finset.card_le_card hsub
      _ < ids.toFinset.card :=
          Finset.card_erase_lt_of_mem (List.mem_toFinset.2 hmem)
      _ ≤ ids.length := List.toFinset_card_le ids
  simp only [fetchServiciosInfo]
  rw [if_pos (by omega)]

/-- When the servicio table has primary-key-unique ids, the requested
id list has no duplicate and every requested id resolves, the IN lookup
returns exactly one row per requested identifier. -/
theorem fetch_servicios_longitud_igual (tabla : List Servicio)
    (servicios : List ServicioReq)
    (hT : (tabla.map (fun s => s.id_servicio)).Nodup)
    (hR : (servicios.map (fun s => s.id_servicio)).Nodup)
    (hall : ∀ s ∈ servicios, ∃ t ∈ tabla, t.id_servicio = s.id_servicio) :
    (tabla.filter (fun t =>
        (servicios.map (fun s => s.id_servicio)).contains t.id_servicio)).length
      = (servicios.map (fun s => s.id_servicio)).length := by
  set ids := servicios.map (fun s => s.id_servicio) with hids
  set srv := tabla.filter (fun t => ids.contains t.id_servicio) with hsrv
  have hnd : (srv.map (fun t => t.id_servicio)).Nodup :=
    List.Nodup.sublist (List.Sublist.map _ (List.filter_sublist tabla)) hT
  have hset : (srv.map (fun t => t.id_servicio)).toFinset = ids.toFinset := by
    apply Finset.Subset.antisymm
    · intro x hx
      rw [List.mem_toFinset] at hx
      obtain ⟨t, ht, rfl⟩ := List.mem_map.1 hx
      exact List.mem_toFinset.2 (by simpa using (List.mem_filter.1 ht).2)
    · intro x hx
      rw [List.mem_toFinset] at hx
      obtain ⟨s, hmem, rfl⟩ := List.mem_map.1 hx
      obtain ⟨t, htT, hts⟩ := hall s hmem
      refine List.mem_toFinset.2 (List.mem_map.2 ⟨t, ?_, hts⟩)
      refine List.mem_filter.2 ⟨htT, ?_⟩
      have hin : t.id_servicio ∈ ids := by
        rw [hts]; exact List.mem_map.2 ⟨s, hmem, rfl⟩
      simpa using hin
  calc srv.length = (srv.map (fun t => t.id_servicio)).length :=
        (List.length_map srv _).symm
    _ = (srv.map (fun t => t.id_servicio)).toFinset.card :=
        (List.toFinset_card_of_nodup hnd).symm
    _ = ids.toFinset.card := by rw [hset]
    _ = ids.length := List.toFinset_card_of_nodup hR

/-- When every requested id resolves (with no duplicate request id and
a primary-key-unique table) but some resolved service is inactive,
fetchServiciosInfo answers with status 409. -/
theorem fetch_servicios_inactivo (tabla : List Servicio)
    (servicios : List ServicioReq)
    (hT : (tabla.map (fun s => s.id_servicio)).Nodup)
    (hR : (servicios.map (fun s => s.id_servicio)).Nodup)
    (hall : ∀ s ∈ servicios, ∃ t ∈ tabla, t.id_servicio = s.id_servicio)
    (hinac : ∃ s ∈ servicios, ∃ t ∈ tabla,
      t.id_servicio = s.id_servicio ∧ t.activo = false) :
    fetchServiciosInfo tabla servicios = .error (409, msgServiciosInactivos) := by
  have hlen := fetch_servicios_longitud_igual tabla servicios hT hR hall
  obtain ⟨s, hs, t, ht, hid, hact⟩ := hinac
  have hmemf : t ∈ tabla.filter (fun u =>
      (servicios.map (fun s => s.id_servicio)).contains u.id_servicio) := by
    refine List.mem_filter.2 ⟨ht, ?_⟩
    have hin : t.id_servicio ∈ servicios.map (fun s => s.id_servicio) := by
      rw [hid]; exact List.mem_map.2 ⟨s, hs, rfl⟩
    simpa using hin
  have hany : (tabla.filter (fun u =>
      (servicios.map (fun s => s.id_servicio)).contains u.id_servicio)).any
        (fun u => !u.activo) = true :=
    List.any_eq_true.2 ⟨t, hmemf, by simp [hact]⟩
  simp only [fetchServiciosInfo]
  rw [if_neg (by omega), if_pos hany]

/-- When the request list repeats an id, the IN lookup necessarily
returns fewer rows than requested identifiers (with a
primary-key-unique table), so fetchServiciosInfo answers with status
400 even if every id exists. -/
theorem fetch_servicios_duplicado (tabla : List Servicio)
    (servicios : List ServicioReq)
    (hT : (tabla.map (fun s => s.id_servicio)).Nodup)
    (hdup : ¬ (servicios.map (fun s => s.id_servicio)).Nodup) :
    fetchServiciosInfo tabla servicios = .error (400, msgServiciosNoExisten) := by
  have hlen :
      (tabla.filter (fun t =>
        (servicios.map (fun s => s.id_servicio)).contains t.id_servicio)).length
        < (servicios.map (fun s => s.id_servicio)).length := by
    set ids := servicios.map (fun s => s.id_servicio) with hids
    set srv := tabla.filter (fun t => ids.contains t.id_servicio) with hsrv
    have hnd : (srv.map (fun t => t.id_servicio)).Nodup :=
      List.Nodup.sublist (List.Sublist.map _ (List.filter_sublist tabla)) hT
    have hsub : (srv.map (fun t => t.id_servicio)).toFinset ⊆ ids.toFinset := by
      intro x hx
      rw [List.mem_toFinset] at hx
      obtain ⟨t, ht, rfl⟩ := List.mem_map.1 hx
      exact List.mem_toFinset.2 (by simpa using (List.mem_filter.1 ht).2)
    have hdd : ids.dedup.length < ids.length := by
      rcases lt_or_eq_of_le (List.dedup_sublist ids).length_le with h | h
      · exact h
      · exact absurd (List.dedup_eq_self.1
          ((List.dedup_sublist ids).eq_of_length h)) hdup
    calc srv.length = (srv.map (fun t => t.id_servicio)).length :=
          (List.length_map srv _).symm
      _ = (srv.map (fun t => t.id_servicio)).toFinset.card :=
          (List.toFinset_card_of_nodup hnd).symm
      _ ≤ ids.toFinset.card := Finset.card_le_card hsub
      _ = ids.dedup.length := List.card_toFinset ids
      _ < ids.length := hdd
  simp only [fetchServiciosInfo]
  rw [if_pos (by omega)]

/-- A service-resolution error surfaces unchanged from POST /atenciones
when the earlier validations pass. -/
theorem crearAtencion_error_servicios (db : AtencionDb) (req : CrearAtencionReq)
    (e : Nat × String)
    (hne : req.servicios ≠ [])
    (hpers : validatePersonalActiveWithRole db.personal req.id_personal
      rolMasoterapeuta = .ok ())
    (htr : ¬ req.traslado_min < 0)
    (hf : fetchServiciosInfo db.servicio req.servicios = .error e) :
    crearAtencion db req = .error e := by
  have h1 : ¬ req.servicios.isEmpty = true := by
    simpa [List.isEmpty_iff] using hne
  simp only [crearAtencion, validarCrearAtencion, if_neg h1, hpers, if_neg htr, hf]

/-- A service-resolution error surfaces unchanged from
PUT /atenciones/:id when the earlier validations pass. -/
theorem actualizarAtencion_error_servicios (db : AtencionDb) (idAt : Nat)
    (req : ActualizarAtencionReq) (e : Nat × String)
    (hne : req.servicios ≠ [])
    (hex : (db.atenciones.find? (fun a => a.id_atencion == idAt)).isSome)
    (hpers : validatePersonalActiveWithRole db.personal req.id_personal
      rolMasoterapeuta = .ok ())
    (htr : ¬ req.traslado_min < 0)
    (hf : fetchServiciosInfo db.servicio req.servicios = .error e) :
    actualizarAtencion db idAt req = .error e := by
  have h1 : ¬ req.servicios.isEmpty = true := by
    simpa [List.isEmpty_iff] using hne
  obtain ⟨a, ha⟩ := Option.isSome_iff_exists.1 hex
  have h2 : ¬ (db.atenciones.find? (fun a => a.id_atencion == idAt)).isNone = true := by
    simp [ha]
  simp only [actualizarAtencion, validarActualizarAtencion, if_neg h1, if_neg h2,
    hpers, if_neg htr, hf]

/-- Counterexample to C3 as stated: a create request whose service id
does not resolve is answered with HTTP status 400, not with
NotFound 404. -/
theorem resolver_no_resuelto_counterexample :
    crearAtencion dbC3 reqC3 = .error (400, msgServiciosNoExisten) ∧
    ∀ m : String, crearAtencion dbC3 reqC3 ≠ .error (404, m) := by
  refine ⟨rfl, ?_⟩
  intro m h
  rw [show crearAtencion dbC3 reqC3 = Except.error (400, msgServiciosNoExisten)
    from rfl] at h
  simp at h

/-- C3 amended.  For every appointment-create or appointment-update
request, if some requested service identifier does not resolve the
request fails with HTTP 400 (InvalidInput, not 404) and no row is
written; if every identifier resolves but some resolved service is
inactive it fails with Conflict 409 and no row is written. -/
theorem resolver_servicios_estados
    (db : AtencionDb) (req : CrearAtencionReq) (idAt : Nat)
    (reqU : ActualizarAtencionReq)
    (hT : (db.servicio.map (fun s => s.id_servicio)).Nodup)
    (hne : req.servicios ≠ [])
    (hpers : validatePersonalActiveWithRole db.personal req.id_personal
      rolMasoterapeuta = .ok ())
    (htr : ¬ req.traslado_min < 0)
    (hU : reqU.servicios = req.servicios ∧ reqU.id_personal = req.id_personal ∧
      reqU.traslado_min = req.traslado_min)
    (hex : (db.atenciones.find? (fun a => a.id_atencion == idAt)).isSome) :
    ((∃ s ∈ req.servicios, ∀ t ∈ db.servicio, t.id_servicio ≠ s.id_servicio) →
      crearAtencion db req = .error (400, msgServiciosNoExisten) ∧
      ejecutarCrearAtencion db req = db ∧
      actualizarAtencion db idAt reqU = .error (400, msgServiciosNoExisten) ∧
      ejecutarActualizarAtencion db idAt reqU = db) ∧
    ((req.servicios.map (fun s => s.id_servicio)).Nodup →
     (∀ s ∈ req.servicios, ∃ t ∈ db.servicio, t.id_servicio = s.id_servicio) →
     (∃ s ∈ req.servicios, ∃ t ∈ db.servicio,
        t.id_servicio = s.id_servicio ∧ t.activo = false) →
      crearAtencion db req = .error (409, msgServiciosInactivos) ∧
      ejecutarCrearAtencion db req = db ∧
      actualizarAtencion db idAt reqU = .error (409, msgServiciosInactivos) ∧
      ejecutarActualizarAtencion db idAt reqU = db) := by
  obtain ⟨hs, hp, ht⟩ := hU
  constructor
  · intro hmiss
    have hf := fetch_servicios_no_resuelto db.servicio req.servicios hT hmiss
    have hc := crearAtencion_error_servicios db req _ hne hpers htr hf
    have ha := actualizarAtencion_error_servicios db idAt reqU _
      (by rw [hs]; exact hne) hex (by rw [hp]; exact hpers)
      (by rw [ht]; exact htr) (by rw [hs]; exact hf)
    exact ⟨hc, by simp [ejecutarCrearAtencion, hc], ha,
      by simp [ejecutarActualizarAtencion, ha]⟩
  · intro hR hall hinac
    have hf := fetch_servicios_inactivo db.servicio req.servicios hT hR hall hinac
    have hc := crearAtencion_error_servicios db req _ hne hpers htr hf
    have ha := actualizarAtencion_error_servicios db idAt reqU _
      (by rw [hs]; exact hne) hex (by rw [hp]; exact hpers)
      (by rw [ht]; exact htr) (by rw [hs]; exact hf)
    exact ⟨hc, by simp [ejecutarCrearAtencion, hc], ha,
      by simp [ejecutarActualizarAtencion, ha]⟩

/-- Witness for the amended C3: the unresolved-id branch at a concrete
database, on both the create and the update paths. -/
theorem resolver_servicios_estados_witness :
    crearAtencion dbC3w reqC3 = .error (400, msgServiciosNoExisten) ∧
    actualizarAtencion dbC3w 7 reqC3u = .error (400, msgServiciosNoExisten) := by
  have h := (resolver_servicios_estados dbC3w reqC3 7 reqC3u (by decide)
    (by decide) rfl (by decide) ⟨rfl, rfl, rfl⟩ rfl).1
    ⟨⟨2, 1000⟩, by decide, by decide⟩
  exact ⟨h.1, h.2.2.1⟩

/-- C10.  A create or update request repeating an existing service id
is rejected with the unresolved-ids error (status 400,
msgServiciosNoExisten) because the single IN lookup returns fewer rows
than requested identifiers, even though every identifier individually
resolves. -/
theorem servicios_duplicados_rechazados
    (db : AtencionDb) (req : CrearAtencionReq) (idAt : Nat)
    (reqU : ActualizarAtencionReq)
    (hT : (db.servicio.map (fun s => s.id_servicio)).Nodup)
    (hdup : ¬ (req.servicios.map (fun s => s.id_servicio)).Nodup)
    (hall : ∀ s ∈ req.servicios, ∃ t ∈ db.servicio, t.id_servicio = s.id_servicio)
    (hne : req.servicios ≠ [])
    (hpers : validatePersonalActiveWithRole db.personal req.id_personal
      rolMasoterapeuta = .ok ())
    (htr : ¬ req.traslado_min < 0)
    (hU : reqU.servicios = req.servicios ∧ reqU.id_personal = req.id_personal ∧
      reqU.traslado_min = req.traslado_min)
    (hex : (db.atenciones.find? (fun a => a.id_atencion == idAt)).isSome) :
    fetchServiciosInfo db.servicio req.servicios =
      .error (400, msgServiciosNoExisten) ∧
    crearAtencion db req = .error (400, msgServiciosNoExisten) ∧
    actualizarAtencion db idAt reqU = .error (400, msgServiciosNoExisten) := by
  obtain ⟨hs, hp, ht⟩ := hU
  have hf := fetch_servicios_duplicado db.servicio req.servicios hT hdup
  refine ⟨hf, crearAtencion_error_servicios db req _ hne hpers htr hf, ?_⟩
  exact actualizarAtencion_error_servicios db idAt reqU _
    (by rw [hs]; exact hne) hex (by rw [hp]; exact hpers)
    (by rw [ht]; exact htr) (by rw [hs]; exact hf)

/-- Witness for C10 at a concrete database: requesting service 1 twice
is rejected with the unresolved-ids error on both paths. -/
theorem servicios_duplicados_rechazados_witness :
    crearAtencion dbC3w reqC10 = .error (400, msgServiciosNoExisten) ∧
    actualizarAtencion dbC3w 7 reqC10u = .error (400, msgServiciosNoExisten) := by
  have h := servicios_duplicados_rechazados dbC3w reqC10 7 reqC10u (by decide)
    (by decide) (by decide) (by decide) rfl (by decide) ⟨rfl, rfl, rfl⟩ rfl
  exact ⟨h.2.1, h.2.2⟩

/-- C7.  In the source the conflict check runs strictly before
beginTransaction on both the create and the update paths, so the
availability check and the insert are NOT one atomic lock-holding unit:
the interleaving in which two identical concurrent requests both pass
their checks against the same committed state commits two non-cancelled
appointments of the same personal with overlapping blocked
intervals. -/
theorem carrera_doble_reserva :
    pasosCrearAtencion.indexOf PasoAtencion.verificarConflictos <
      pasosCrearAtencion.indexOf PasoAtencion.iniciarTransaccion ∧
    pasosActualizarAtencion.indexOf PasoAtencion.verificarConflictos <
      pasosActualizarAtencion.indexOf PasoAtencion.iniciarTransaccion ∧
    resultadoCarrera dbC1 reqC1 reqC1 = some dbCarreraFin ∧
    filaCarrera1 ∈ dbCarreraFin.atenciones ∧
    filaCarrera2 ∈ dbCarreraFin.atenciones ∧
    filaCarrera1.id_atencion ≠ filaCarrera2.id_atencion ∧
    seSolapan filaCarrera1 filaCarrera2 := by
  refine ⟨by decide, by decide, rfl, by decide, by decide, by decide, ?_⟩
  refine ⟨rfl, by decide, by decide, by decide, by decide⟩

/-- Full characterization of a successful loop-body step: the found
product row, the passed stock check, the decremented working table, the
conditional warning, the inserted detail row and the accumulated
total. -/
theorem procesarItem_ok_spec (idv : Nat) (st st2 : EstadoItems) (it : ItemReq)
    (hok : procesarItem idv st it = .ok st2) :
    ∃ prod, st.productos.find? (fun p => p.id_producto == it.id_producto) = some prod ∧
      ¬ prod.stock < it.cantidad ∧ 0 < it.cantidad ∧
      st2.productos = updateStock st.productos it.id_producto (-it.cantidad) ∧
      st2.warnings = (if prod.stock - it.cantidad ≤ prod.stock_minimo
        then st.warnings ++
          [⟨it.id_producto, prod.nombre, prod.stock - it.cantidad, prod.stock_minimo⟩]
        else st.warnings) ∧
      st2.detalles = st.detalles ++
        [⟨idv, it.id_producto, it.cantidad, it.precio_unitario⟩] ∧
      st2.total = st.total + it.cantidad * it.precio_unitario := by
  unfold procesarItem at hok
  split at hok
  · exact absurd hok (by simp)
  · split at hok
    · exact absurd hok (by simp)
    · rename_i h1 h2
      split at hok
      · exact absurd hok (by simp)
      · rename_i prod hfind
        split at hok
        · exact absurd hok (by simp)
        · rename_i hstock
          injection hok with hok
          subst hok
          have hcant : 0 < it.cantidad := by
            simp only [Bool.or_eq_true, not_or] at h1 h2
            have hc0 : ¬ it.cantidad = 0 := by
              intro hc; exact h1.2 (by simp [hc])
            have hc1 : ¬ it.cantidad ≤ 0 := by
              intro hc; exact h2.1 (by simpa using hc)
            omega
          exact ⟨prod, hfind, hstock, hcant, rfl, rfl, rfl, rfl⟩

/-- A stock update never touches the id column, so lookups commute with
it. -/
theorem find?_updateStock (productos : List Producto) (idp objetivo : Nat)
    (delta : Int) :
    (updateStock productos idp delta).find? (fun p => p.id_producto == objetivo) =
      (productos.find? (fun p => p.id_producto == objetivo)).map
        (fun p => if p.id_producto == idp then { p with stock := p.stock + delta }
          else p) := by
  induction productos with
  | nil => rfl
  | cons q rest ih =>
    simp only [updateStock, List.map_cons] at ih ⊢
    cases hik : q.id_producto == idp <;> cases hio : q.id_producto == objetivo <;>
      simp_all [List.find?_cons, hik, hio]

/-- A stock update leaves the id column of every row unchanged. -/
theorem map_id_updateStock (productos : List Producto) (idp : Nat) (delta : Int) :
    (updateStock productos idp delta).map (fun p => p.id_producto) =
      productos.map (fun p => p.id_producto) := by
  unfold updateStock
  rw [List.map_map]
  apply List.map_congr_left
  intro p _
  dsimp only [Function.comp]
  split <;> rfl

/-- With primary-key-unique ids, a row holding the looked-up id is the
row the lookup returns. -/
theorem find?_unico (objetivo : Nat) (p : Producto) :
    ∀ (productos : List Producto) (q : Producto),
    (productos.map (fun r => r.id_producto)).Nodup →
    q ∈ productos → q.id_producto = objetivo →
    productos.find? (fun r => r.id_producto == objetivo) = some p →
    q = p := by
  intro productos
  induction productos with
  | nil => intro q _ hq; cases hq
  | cons r rest ih =>
    intro q hnd hq hqid hfind
    rw [List.map_cons, List.nodup_cons] at hnd
    rcases List.mem_cons.1 hq with rfl | hq2
    · have hb : (q.id_producto == objetivo) = true := by simp [hqid]
      rw [List.find?_cons, hb] at hfind
      exact Option.some.inj hfind
    · by_cases hr : (r.id_producto == objetivo) = true
      · exfalso
        apply hnd.1
        have hmem : q.id_producto ∈ List.map (fun t => t.id_producto) rest :=
          List.mem_map.2 ⟨q, hq2, rfl⟩
        rw [hqid] at hmem
        rw [show r.id_producto = objetivo from by simpa using hr]
        exact hmem
      · rw [List.find?_cons] at hfind
        rw [Bool.not_eq_true] at hr
        rw [hr] at hfind
        exact ih q hnd.2 hq2 hqid hfind

/-- C9.  A successful loop-body step of a sale appends a low-stock
warning for the processed line item iff the product stock after the
decrement is less than or equal to the stock-minimum threshold, and the
warning carries the post-decrement stock. -/
theorem warning_stock_bajo (idv : Nat) (st st2 : EstadoItems) (it : ItemReq)
    (prod : Producto)
    (hok : procesarItem idv st it = .ok st2)
    (hfind : st.productos.find? (fun p => p.id_producto == it.id_producto) = some prod) :
    st2.warnings = (if prod.stock - it.cantidad ≤ prod.stock_minimo
      then st.warnings ++
        [⟨it.id_producto, prod.nombre, prod.stock - it.cantidad, prod.stock_minimo⟩]
      else st.warnings) := by
  obtain ⟨prod2, hfind2, -, -, -, hw, -, -⟩ := procesarItem_ok_spec idv st st2 it hok
  rw [hfind] at hfind2
  injection hfind2 with hfind2
  rw [hw, hfind2]

/-- Witness for C9: selling 5 units of a product with stock 12 and
minimum 10 leaves stock 7 and warns; a following sale of 3 leaves
stock 4 and is still warned. -/
theorem warning_stock_bajo_witness :
    procesarItem 1 stC9a ⟨1, 5, 1000⟩ = .ok stC9b ∧
    stC9b.warnings = [⟨1, nombreCrema, 7, 10⟩] ∧
    procesarItem 2 stC9c ⟨1, 3, 1000⟩ = .ok stC9d ∧
    stC9d.warnings = [⟨1, nombreCrema, 4, 10⟩] := by
  have h1 := warning_stock_bajo 1 stC9a stC9b ⟨1, 5, 1000⟩
    ⟨1, nombreCrema, 12, 10⟩ rfl rfl
  have h2 := warning_stock_bajo 2 stC9c stC9d ⟨1, 3, 1000⟩
    ⟨1, nombreCrema, 7, 10⟩ rfl rfl
  exact ⟨rfl, h1.trans (by norm_num [stC9a]), rfl, h2.trans (by norm_num [stC9c])⟩

/-- During the create loop stocks only decrease, so once some requested
quantity exceeds the stock its product had at the start of the request
(and every line item is otherwise well formed against the original
table), the loop necessarily aborts with the insufficient-stock
error. -/
theorem procesarItems_insuficiente (idv : Nat) (orig : List Producto) :
    ∀ (items : List ItemReq) (st : EstadoItems),
    (∀ objetivo p0, orig.find? (fun p => p.id_producto == objetivo) = some p0 →
       ∃ p1, st.productos.find? (fun p => p.id_producto == objetivo) = some p1 ∧
         p1.stock ≤ p0.stock) →
    (∀ it ∈ items, it.id_producto ≠ 0 ∧ 0 < it.cantidad ∧ 0 ≤ it.precio_unitario ∧
       (orig.find? (fun p => p.id_producto == it.id_producto)).isSome) →
    (∃ it ∈ items, ∃ p0,
       orig.find? (fun p => p.id_producto == it.id_producto) = some p0 ∧
       p0.stock < it.cantidad) →
    procesarItems idv st items = .error (400, msgStockInsuficiente) := by
  intro items
  induction items with
  | nil =>
    intro st _ _ hover
    simp at hover
  | cons it rest ih =>
    intro st hinv hvalid hover
    obtain ⟨hid0, hcant, hprecio, hsome⟩ := hvalid it (List.mem_cons_self it rest)
    obtain ⟨p0, hp0⟩ := Option.isSome_iff_exists.1 hsome
    obtain ⟨p1, hp1, hle⟩ := hinv it.id_producto p0 hp0
    have h1 : ¬ (it.id_producto == 0 || it.cantidad == 0) = true := by
      simp only [Bool.or_eq_true, beq_iff_eq]
      push_neg
      exact ⟨hid0, by omega⟩
    have h2 : ¬ (decide (it.cantidad ≤ 0) || decide (it.precio_unitario < 0)) = true := by
      simp only [Bool.or_eq_true, decide_eq_true_eq]
      push_neg
      exact ⟨by omega, by omega⟩
    simp only [procesarItems, procesarItem, if_neg h1, if_neg h2, hp1]
    by_cases hs : p1.stock < it.cantidad
    · rw [if_pos hs]
    · rw [if_neg hs]
      apply ih
      · intro objetivo q0 hq0
        obtain ⟨q1, hq1, hqle⟩ := hinv objetivo q0 hq0
        refine ⟨if q1.id_producto == it.id_producto then
          { q1 with stock := q1.stock + (-it.cantidad) } else q1, ?_, ?_⟩
        · show (updateStock st.productos it.id_producto (-it.cantidad)).find?
            (fun p => p.id_producto == objetivo) = _
          rw [find?_updateStock, hq1]
          rfl
        · by_cases hq : (q1.id_producto == it.id_producto) = true <;>
            simp [hq] <;> omega
      · intro j hj
        exact hvalid j (List.mem_cons_of_mem it hj)
      · rcases hover with ⟨j, hj, q0, hq0, hqlt⟩
        rcases List.mem_cons.1 hj with rfl | hj2
        · exfalso
          rw [hp0] at hq0
          injection hq0 with hq0
          subst hq0
          omega
        · exact ⟨j, hj2, q0, hq0, hqlt⟩

/-- Counterexample to C4 as stated: a sale whose quantity exceeds the
available stock is rejected with HTTP status 400, not with
Conflict 409. -/
theorem venta_insuficiente_counterexample :
    crearVenta dbC4 reqC4 = .error (400, msgStockInsuficiente) ∧
    ∀ m : String, crearVenta dbC4 reqC4 ≠ .error (409, m) := by
  refine ⟨rfl, ?_⟩
  intro m h
  rw [show crearVenta dbC4 reqC4 = Except.error (400, msgStockInsuficiente)
    from rfl] at h
  simp at h

/-- C4 amended.  A sale-create request containing a line item whose
quantity exceeds the stock its product currently has fails with HTTP
400 (InvalidInput, not 409) and the insufficient-stock message, and
after the failure every stock equals its value before the request. -/
theorem venta_stock_insuficiente
    (db : VentaDb) (req : CrearVentaReq)
    (hvend : esVendedoraActiva db.personal req.id_personal = true)
    (hid : req.id_personal ≠ 0)
    (hitems : ∀ it ∈ req.items, it.id_producto ≠ 0 ∧ 0 < it.cantidad ∧
      0 ≤ it.precio_unitario ∧
      (db.productos.find? (fun p => p.id_producto == it.id_producto)).isSome)
    (hover : ∃ it ∈ req.items, ∃ p0,
      db.productos.find? (fun p => p.id_producto == it.id_producto) = some p0 ∧
      p0.stock < it.cantidad) :
    crearVenta db req = .error (400, msgStockInsuficiente) ∧
    ejecutarCrearVenta db req = db := by
  have hcopy := hover
  obtain ⟨it0, hit0, -⟩ := hcopy
  have hne : ¬ req.items.isEmpty = true := by
    rcases hh : req.items with _ | ⟨a, l⟩
    · rw [hh] at hit0; cases hit0
    · simp
  have hidb : ¬ (req.id_personal == 0) = true := by simpa using hid
  have hloop := procesarItems_insuficiente db.nextIdVenta db.productos req.items
    ⟨db.productos, [], 0, []⟩ (fun objetivo p0 h => ⟨p0, h, le_refl p0.stock⟩)
    hitems hover
  have hc : crearVenta db req = .error (400, msgStockInsuficiente) := by
    simp only [crearVenta, if_neg hne, if_neg hidb, hvend, Bool.not_true,
      Bool.false_eq_true, if_false, hloop]
  exact ⟨hc, by simp [ejecutarCrearVenta, hc]⟩

/-- Witness for the amended C4 at the concrete database: the request is
rejected with status 400 and the database is unchanged. -/
theorem venta_stock_insuficiente_witness :
    crearVenta dbC4 reqC4 = .error (400, msgStockInsuficiente) ∧
    ejecutarCrearVenta dbC4 reqC4 = dbC4 :=
  venta_stock_insuficiente dbC4 reqC4 rfl (by decide) (by decide)
    ⟨⟨1, 5, 1000⟩, by decide, ⟨1, nombreCrema, 2, 0⟩, rfl, by norm_num⟩

/-- The reservation loop preserves non-negativity of every stock and
uniqueness of the product ids: each successful step has checked
stock >= quantity on the row it decrements. -/
theorem procesarItems_stock_nonneg (idv : Nat) :
    ∀ (items : List ItemReq) (st st2 : EstadoItems),
    procesarItems idv st items = .ok st2 →
    (st.productos.map (fun p => p.id_producto)).Nodup →
    (∀ p ∈ st.productos, 0 ≤ p.stock) →
    (∀ p ∈ st2.productos, 0 ≤ p.stock) ∧
    (st2.productos.map (fun p => p.id_producto)).Nodup := by
  intro items
  induction items with
  | nil =>
    intro st st2 hok hnd hnn
    injection hok with hok
    subst hok
    exact ⟨hnn, hnd⟩
  | cons it rest ih =>
    intro st st2 hok hnd hnn
    simp only [procesarItems] at hok
    cases hstep : procesarItem idv st it with
    | error e => rw [hstep] at hok; exact absurd hok (by simp)
    | ok st1 =>
      rw [hstep] at hok
      obtain ⟨prod, hfind, hnolt, hcant, hprods, -, -, -⟩ :=
        procesarItem_ok_spec idv st st1 it hstep
      apply ih st1 st2 hok
      · rw [hprods, map_id_updateStock]
        exact hnd
      · intro q hq
        rw [hprods] at hq
        unfold updateStock at hq
        obtain ⟨q0, hq0, rfl⟩ := List.mem_map.1 hq
        by_cases hqe : (q0.id_producto == it.id_producto) = true
        · have hq0id : q0.id_producto = it.id_producto := by simpa using hqe
          have hq0p : q0 = prod :=
            find?_unico it.id_producto prod st.productos q0 hnd hq0 hq0id hfind
          subst hq0p
          simp only [hqe, if_true]
          omega
        · simp only [Bool.not_eq_true] at hqe
          simp only [hqe, Bool.false_eq_true, if_false]
          exact hnn q0 hq0

/-- The restoration loop of PUT /ventas/:id leaves the id column of
every product row unchanged. -/
theorem restaurar_map_id : ∀ (olds : List DetalleVenta) (l : List Producto),
    (restaurarStock l olds).map (fun p => p.id_producto) =
      l.map (fun p => p.id_producto) := by
  intro olds
  induction olds with
  | nil => intro l; rfl
  | cons d rest ih =>
    intro l
    show (restaurarStock (if 0 < d.cantidad then
      updateStock l d.id_producto d.cantidad else l) rest).map _ = _
    rw [ih]
    by_cases h : 0 < d.cantidad <;> simp [h, map_id_updateStock]

/-- The restoration loop only adds positive quantities, so it preserves
non-negativity of every stock. -/
theorem restaurar_nonneg : ∀ (olds : List DetalleVenta) (l : List Producto),
    (∀ p ∈ l, 0 ≤ p.stock) → ∀ p ∈ restaurarStock l olds, 0 ≤ p.stock := by
  intro olds
  induction olds with
  | nil => intro l h; exact h
  | cons d rest ih =>
    intro l h
    show ∀ p ∈ restaurarStock (if 0 < d.cantidad then
      updateStock l d.id_producto d.cantidad else l) rest, 0 ≤ p.stock
    apply ih
    intro p hp
    by_cases hc : 0 < d.cantidad
    · rw [if_pos hc] at hp
      unfold updateStock at hp
      obtain ⟨q, hq, rfl⟩ := List.mem_map.1 hp
      by_cases hqe : (q.id_producto == d.id_producto) = true
      · simp only [hqe, if_true]
        have := h q hq
        omega
      · simp only [Bool.not_eq_true] at hqe
        simp only [hqe, Bool.false_eq_true, if_false]
        exact h q hq
    · rw [if_neg hc] at hp
      exact h p hp

/-- C5.  When every stored stock is non-negative (and product ids are
primary-key unique), every product stock committed by a successful
POST /ventas or PUT /ventas/:id is still non-negative: a reservation
that would drive a stock below zero aborts the whole transaction
instead. -/
theorem stock_no_negativo
    (db : VentaDb)
    (hnn : ∀ p ∈ db.productos, 0 ≤ p.stock)
    (hnd : (db.productos.map (fun p => p.id_producto)).Nodup) :
    (∀ req db2 resp, crearVenta db req = .ok (db2, resp) →
       ∀ p ∈ db2.productos, 0 ≤ p.stock) ∧
    (∀ idv req db2 resp, actualizarVenta db idv req = .ok (db2, resp) →
       ∀ p ∈ db2.productos, 0 ≤ p.stock) := by
  constructor
  · intro req db2 resp hok
    unfold crearVenta at hok
    split at hok
    · exact absurd hok (by simp)
    · split at hok
      · exact absurd hok (by simp)
      · split at hok
        · exact absurd hok (by simp)
        · dsimp only at hok
          cases hloop : procesarItems db.nextIdVenta ⟨db.productos, [], 0, []⟩
            req.items with
          | error e => rw [hloop] at hok; exact absurd hok (by simp)
          | ok st =>
            rw [hloop] at hok
            injection hok with hok
            rw [Prod.mk.injEq] at hok
            obtain ⟨hdb, -⟩ := hok
            subst hdb
            obtain ⟨h1, -⟩ := procesarItems_stock_nonneg db.nextIdVenta req.items
              ⟨db.productos, [], 0, []⟩ st hloop hnd hnn
            exact h1
  · intro idv req db2 resp hok
    unfold actualizarVenta at hok
    split at hok
    · exact absurd hok (by simp)
    · split at hok
      · exact absurd hok (by simp)
      · split at hok
        · exact absurd hok (by simp)
        · split at hok
          · exact absurd hok (by simp)
          · dsimp only at hok
            cases hloop : procesarItems idv
              ⟨restaurarStock db.productos
                (db.detalles.filter (fun d => d.id_venta == idv)), [], 0, []⟩
              req.items with
            | error e => rw [hloop] at hok; exact absurd hok (by simp)
            | ok st =>
              rw [hloop] at hok
              injection hok with hok
              rw [Prod.mk.injEq] at hok
              obtain ⟨hdb, -⟩ := hok
              subst hdb
              have hnn1 : ∀ p ∈ restaurarStock db.productos
                  (db.detalles.filter (fun d => d.id_venta == idv)), 0 ≤ p.stock :=
                restaurar_nonneg _ db.productos hnn
              have hnd1 : ((restaurarStock db.productos
                  (db.detalles.filter (fun d => d.id_venta == idv))).map
                    (fun p => p.id_producto)).Nodup := by
                rw [restaurar_map_id]
                exact hnd
              obtain ⟨h1, -⟩ := procesarItems_stock_nonneg idv req.items
                ⟨restaurarStock db.productos
                  (db.detalles.filter (fun d => d.id_venta == idv)), [], 0, []⟩
                st hloop hnd1 hnn1
              exact h1

/-- Witness for C5: after the concrete committed sale the committed
stock is non-negative. -/
theorem stock_no_negativo_witness :
    crearVenta dbC5 reqC5 = .ok (dbC5fin, respC5) ∧ 0 ≤ prodC5fin.stock := by
  refine ⟨rfl, ?_⟩
  exact (stock_no_negativo dbC5 (by decide) (by decide)).1 reqC5
    dbC5fin respC5 rfl prodC5fin (by decide)

/-- The restoration loop is the pointwise addition of sumRestaura. -/
theorem restaurar_delta : ∀ (olds : List DetalleVenta) (l : List Producto),
    restaurarStock l olds =
      l.map (fun p => { p with stock := p.stock + sumRestaura olds p.id_producto }) := by
  intro olds
  induction olds with
  | nil =>
    intro l
    have hfun : (fun p : Producto =>
        ({ p with stock := p.stock + sumRestaura [] p.id_producto } : Producto)) =
        fun p => p := by
      funext p
      simp [sumRestaura]
    rw [hfun]
    rw [List.map_id']
    rfl
  | cons d rest ih =>
    intro l
    show restaurarStock (if 0 < d.cantidad then
      updateStock l d.id_producto d.cantidad else l) rest = _
    rw [ih]
    by_cases hc : 0 < d.cantidad
    · rw [if_pos hc]
      unfold updateStock
      rw [List.map_map]
      apply List.map_congr_left
      intro p _
      dsimp only [Function.comp]
      by_cases hpe : (p.id_producto == d.id_producto) = true
      · have hpe2 : p.id_producto = d.id_producto := by simpa using hpe
        simp only [hpe, if_true, sumRestaura]
        rw [if_pos ⟨hpe2.symm, hc⟩]
        congr 1
        omega
      · have hpe2 : ¬ p.id_producto = d.id_producto := by simpa using hpe
        rw [Bool.not_eq_true] at hpe
        simp only [hpe, Bool.false_eq_true, if_false, sumRestaura]
        rw [if_neg (fun h => hpe2 h.1.symm)]
        congr 1
        omega
    · rw [if_neg hc]
      apply List.map_congr_left
      intro p _
      simp only [sumRestaura]
      rw [if_neg (fun h => hc h.2)]
      congr 1
      omega

/-- The reservation loop is the pointwise subtraction of
sumCantidades on success. -/
theorem procesar_delta (idv : Nat) :
    ∀ (items : List ItemReq) (st st2 : EstadoItems),
    procesarItems idv st items = .ok st2 →
    st2.productos = st.productos.map
      (fun p => { p with stock := p.stock - sumCantidades items p.id_producto }) := by
  intro items
  induction items with
  | nil =>
    intro st st2 hok
    injection hok with hok
    subst hok
    have hfun : (fun p : Producto =>
        ({ p with stock := p.stock - sumCantidades [] p.id_producto } : Producto)) =
        fun p => p := by
      funext p
      simp [sumCantidades]
    rw [hfun, List.map_id']
  | cons it rest ih =>
    intro st st2 hok
    simp only [procesarItems] at hok
    cases hstep : procesarItem idv st it with
    | error e => rw [hstep] at hok; exact absurd hok (by simp)
    | ok st1 =>
      rw [hstep] at hok
      obtain ⟨prod, -, -, -, hprods, -, -, -⟩ :=
        procesarItem_ok_spec idv st st1 it hstep
      rw [ih st1 st2 hok, hprods]
      unfold updateStock
      rw [List.map_map]
      apply List.map_congr_left
      intro p _
      dsimp only [Function.comp]
      by_cases hpe : (p.id_producto == it.id_producto) = true
      · have hpe2 : p.id_producto = it.id_producto := by simpa using hpe
        simp only [hpe, if_true, sumCantidades]
        rw [if_pos hpe2.symm]
        congr 1
        omega
      · have hpe2 : ¬ p.id_producto = it.id_producto := by simpa using hpe
        rw [Bool.not_eq_true] at hpe
        simp only [hpe, Bool.false_eq_true, if_false, sumCantidades]
        rw [if_neg (fun h => hpe2 h.symm)]
        congr 1
        omega

/-- C8.  A successful PUT /ventas/:id first restores the stock of every
old line item, then reserves the new list, all in one transaction: the
committed stock of every product row changes by exactly its restored
old quantity minus its newly reserved quantity, and any failure of the
handler leaves the database exactly as before the request. -/
theorem actualizar_venta_delta (db : VentaDb) (idVenta : Nat) (req : CrearVentaReq) :
    (∀ db2 resp, actualizarVenta db idVenta req = .ok (db2, resp) →
      db2.productos = db.productos.map (fun p =>
        { p with stock := (p.stock
            + sumRestaura (db.detalles.filter (fun d => d.id_venta == idVenta))
                p.id_producto
            - sumCantidades req.items p.id_producto) })) ∧
    (∀ e, actualizarVenta db idVenta req = .error e →
      ejecutarActualizarVenta db idVenta req = db) := by
  constructor
  · intro db2 resp hok
    unfold actualizarVenta at hok
    split at hok
    · exact absurd hok (by simp)
    · split at hok
      · exact absurd hok (by simp)
      · split at hok
        · exact absurd hok (by simp)
        · split at hok
          · exact absurd hok (by simp)
          · dsimp only at hok
            cases hloop : procesarItems idVenta
              ⟨restaurarStock db.productos
                (db.detalles.filter (fun d => d.id_venta == idVenta)), [], 0, []⟩
              req.items with
            | error e => rw [hloop] at hok; exact absurd hok (by simp)
            | ok st =>
              rw [hloop] at hok
              injection hok with hok
              rw [Prod.mk.injEq] at hok
              obtain ⟨hdb, -⟩ := hok
              subst hdb
              have hst := procesar_delta idVenta req.items
                ⟨restaurarStock db.productos
                  (db.detalles.filter (fun d => d.id_venta == idVenta)), [], 0, []⟩
                st hloop
              dsimp only at hst ⊢
              rw [hst, restaurar_delta, List.map_map]
              apply List.map_congr_left
              intro p _
              rfl
  · intro e he
    simp [ejecutarActualizarVenta, he]

/-- Witness for C8: the concrete update commits stock
7 + restored 5 - reserved 2 = 10. -/
theorem actualizar_venta_delta_witness :
    actualizarVenta dbC8 1 reqC8 = .ok (dbC8fin, respC8) ∧
    dbC8fin.productos = dbC8.productos.map (fun p =>
      { p with stock := (p.stock
          + sumRestaura (dbC8.detalles.filter (fun d => d.id_venta == 1))
              p.id_producto
          - sumCantidades reqC8.items p.id_producto) }) :=
  ⟨rfl, (actualizar_venta_delta dbC8 1 reqC8).1 dbC8fin respC8 rfl⟩

/-- Appending a payment row of the order adds its amount to the
aggregated venta total. -/
theorem sumPagosVenta_append (pagos : List PagoVenta) (idv : Nat) (pg : PagoVenta)
    (h : pg.id_venta = idv) :
    sumPagosVenta (pagos ++ [pg]) idv = sumPagosVenta pagos idv + pg.monto := by
  unfold sumPagosVenta
  rw [List.filter_append, List.foldl_append]
  have hb : (pg.id_venta == idv) = true := by simp [h]
  rw [List.filter_cons]
  rw [hb]
  rfl

/-- Appending a payment row of the order adds its amount to the
aggregated atencion total. -/
theorem sumPagosAtencion_append (pagos : List PagoAtencion) (ida : Nat)
    (pg : PagoAtencion) (h : pg.id_atencion = ida) :
    sumPagosAtencion (pagos ++ [pg]) ida = sumPagosAtencion pagos ida + pg.monto := by
  unfold sumPagosAtencion
  rw [List.filter_append, List.foldl_append]
  have hb : (pg.id_atencion == ida) = true := by simp [h]
  rw [List.filter_cons]
  rw [hb]
  rfl

/-- The status write of the pagos-venta route commutes with the header
lookup. -/
theorem find?_estado_venta (ventas : List Venta) (idv : Nat) (estado : String) :
    (ventas.map (fun w => if w.id_venta == idv
        then { w with estado_pago := estado } else w)).find?
      (fun w => w.id_venta == idv) =
    (ventas.find? (fun w => w.id_venta == idv)).map
      (fun w => { w with estado_pago := estado }) := by
  induction ventas with
  | nil => rfl
  | cons v rest ih =>
    cases hv : v.id_venta == idv <;> simp_all [List.find?_cons, hv]

/-- The status write of the pagos-atencion route commutes with the
header lookup. -/
theorem find?_estado_atencion (atenciones : List Atencion) (ida : Nat)
    (estado : String) :
    (atenciones.map (fun b => if b.id_atencion == ida
        then { b with estado_pago := estado } else b)).find?
      (fun b => b.id_atencion == ida) =
    (atenciones.find? (fun b => b.id_atencion == ida)).map
      (fun b => { b with estado_pago := estado }) := by
  induction atenciones with
  | nil => rfl
  | cons a rest ih =>
    cases ha : a.id_atencion == ida <;> simp_all [List.find?_cons, ha]

/-- The updated venta header row that materializes the written status. -/
theorem existe_estado_venta (ventas : List Venta) (idv : Nat) (v : Venta)
    (est : String)
    (hfind : ventas.find? (fun w => w.id_venta == idv) = some v) :
    ∃ w, ((ventas.map (fun u => if u.id_venta == idv
        then { u with estado_pago := est } else u)).find?
      (fun w => w.id_venta == idv)) = some w ∧
      w.estado_pago = est ∧ w.total = v.total := by
  refine ⟨{ v with estado_pago := est }, ?_, rfl, rfl⟩
  rw [find?_estado_venta, hfind]
  rfl

/-- The updated atencion header row that materializes the written
status. -/
theorem existe_estado_atencion (atenciones : List Atencion) (ida : Nat)
    (a : Atencion) (est : String)
    (hfind : atenciones.find? (fun b => b.id_atencion == ida) = some a) :
    ∃ w, ((atenciones.map (fun b => if b.id_atencion == ida
        then { b with estado_pago := est } else b)).find?
      (fun b => b.id_atencion == ida)) = some w ∧
      w.estado_pago = est ∧ w.total = a.total := by
  refine ⟨{ a with estado_pago := est }, ?_, rfl, rfl⟩
  rw [find?_estado_atencion, hfind]
  rfl

/-- C6.  After every committed payment submission on a sale or an
appointment, the returned paid total equals the aggregation of every
stored payment row of that order (the previous rows plus the new one),
the stored header status equals the returned status, and the status
follows the formula: pagado when the paid total reaches the order
total, parcial when it is positive but below the total, pendiente when
it is not positive while below the total; in particular a payment of
exactly the order total minus the already-paid amount yields pagado. -/
theorem estado_pago_derivado :
    (∀ (db : VentaDb) (idv : Nat) (monto : Int) (medio : String)
       (db2 : VentaDb) (resp : PagoResp),
      registrarPagoVenta db idv monto medio = .ok (db2, resp) →
      resp.totalPagado = sumPagosVenta db2.pagosVenta idv ∧
      resp.totalPagado = sumPagosVenta db.pagosVenta idv + monto ∧
      (∃ v, db2.ventas.find? (fun w => w.id_venta == idv) = some v ∧
        v.estado_pago = resp.estado_pago ∧ v.total = resp.total) ∧
      (resp.total ≤ resp.totalPagado → resp.estado_pago = estadoPagado) ∧
      (0 < resp.totalPagado → resp.totalPagado < resp.total →
        resp.estado_pago = estadoParcial) ∧
      (resp.totalPagado < resp.total → resp.totalPagado ≤ 0 →
        resp.estado_pago = estadoPendiente) ∧
      (monto = resp.total - sumPagosVenta db.pagosVenta idv →
        resp.estado_pago = estadoPagado)) ∧
    (∀ (db : AtencionDb) (ida : Nat) (monto : Int) (medio : String)
       (db2 : AtencionDb) (resp : PagoResp),
      registrarPagoAtencion db ida monto medio = .ok (db2, resp) →
      resp.totalPagado = sumPagosAtencion db2.pagosAtencion ida ∧
      resp.totalPagado = sumPagosAtencion db.pagosAtencion ida + monto ∧
      (∃ a, db2.atenciones.find? (fun b => b.id_atencion == ida) = some a ∧
        a.estado_pago = resp.estado_pago ∧ a.total = resp.total) ∧
      (resp.total ≤ resp.totalPagado → resp.estado_pago = estadoPagado) ∧
      (0 < resp.totalPagado → resp.totalPagado < resp.total →
        resp.estado_pago = estadoParcial) ∧
      (resp.totalPagado < resp.total → resp.totalPagado ≤ 0 →
        resp.estado_pago = estadoPendiente) ∧
      (monto = resp.total - sumPagosAtencion db.pagosAtencion ida →
        resp.estado_pago = estadoPagado)) := by
  constructor
  · intro db idv monto medio db2 resp hok
    unfold registrarPagoVenta at hok
    split at hok
    · exact absurd hok (by simp)
    · split at hok
      · exact absurd hok (by simp)
      · dsimp only at hok
        cases hfind : db.ventas.find? (fun v => v.id_venta == idv) with
        | none => rw [hfind] at hok; exact absurd hok (by simp)
        | some v =>
          rw [hfind] at hok
          injection hok with hok
          rw [Prod.mk.injEq] at hok
          obtain ⟨hdb, hresp⟩ := hok
          subst hdb
          subst hresp
          have hsum := sumPagosVenta_append db.pagosVenta idv ⟨idv, monto, medio⟩ rfl
          dsimp only at hsum
          refine ⟨rfl, hsum, ?_, ?_, ?_, ?_, ?_⟩
          · exact existe_estado_venta db.ventas idv v _ hfind
          · intro h
            dsimp only at h ⊢
            unfold derivarEstadoPago
            rw [if_pos h]
          · intro h1 h2
            dsimp only at h1 h2 ⊢
            unfold derivarEstadoPago
            rw [if_neg (by omega), if_pos h1]
          · intro h1 h2
            dsimp only at h1 h2 ⊢
            unfold derivarEstadoPago
            rw [if_neg (by omega), if_neg (by omega)]
          · intro h
            dsimp only at h ⊢
            unfold derivarEstadoPago
            rw [if_pos (by omega)]
  · intro db ida monto medio db2 resp hok
    unfold registrarPagoAtencion at hok
    split at hok
    · exact absurd hok (by simp)
    · split at hok
      · exact absurd hok (by simp)
      · cases hfind : db.atenciones.find? (fun a => a.id_atencion == ida) with
        | none => rw [hfind] at hok; exact absurd hok (by simp)
        | some a =>
          rw [hfind] at hok
          dsimp only at hok
          injection hok with hok
          rw [Prod.mk.injEq] at hok
          obtain ⟨hdb, hresp⟩ := hok
          subst hdb
          subst hresp
          have hsum := sumPagosAtencion_append db.pagosAtencion ida
            ⟨ida, monto, medio⟩ rfl
          dsimp only at hsum
          refine ⟨rfl, hsum, ?_, ?_, ?_, ?_, ?_⟩
          · exact existe_estado_atencion db.atenciones ida a _ hfind
          · intro h
            dsimp only at h ⊢
            unfold derivarEstadoPago
            rw [if_pos h]
          · intro h1 h2
            dsimp only at h1 h2 ⊢
            unfold derivarEstadoPago
            rw [if_neg (by omega), if_pos h1]
          · intro h1 h2
            dsimp only at h1 h2 ⊢
            unfold derivarEstadoPago
            rw [if_neg (by omega), if_neg (by omega)]
          · intro h
            dsimp only at h ⊢
            unfold derivarEstadoPago
            rw [if_pos (by omega)]

/-- Witness for C6: paying exactly total minus the already-paid amount
(10000 - 4000 = 6000) makes the status pagado. -/
theorem estado_pago_derivado_witness :
    registrarPagoVenta dbC6 1 6000 medioEfectivo = .ok (dbC6fin, respC6) ∧
    respC6.estado_pago = estadoPagado := by
  refine ⟨rfl, ?_⟩
  exact (estado_pago_derivado.1 dbC6 1 6000 medioEfectivo dbC6fin respC6
    rfl).2.2.2.2.2.2 (by decide)
